/-
Verification of the restaurant-data pipeline (biggerbellyboys).

Shallow embedding of the JavaScript sources:
  * `.github/scripts/update-restaurant-data.js` — the data-update pipeline
    (CSV parsing, row validation, geocoding, thumbnail resolution,
    dataset assembly, whole-pipeline retry loop);
  * the client script (`js/app.js` and the unnamed client file) — cache-key
    generation, cache-first coordinate lookup, and client-side rating
    coercion.

Strings are modelled as `List Char` (`Str`), JavaScript numbers as exact
scaled decimals (`Dec`; the quantities involved are short decimal
literals, and `NaN` is modelled by `Option`).  Network and filesystem effects are
modelled as explicit environments of pure response functions.
-/
import Mathlib

namespace BBB

/-- Strings are lists of characters, which keeps induction simple. -/
abbrev Str := List Char

/-- The whitespace characters relevant to the pipeline's inputs
(JS `trim` / `\s` also cover rarer Unicode spaces, which never occur in
this data). -/
def isWsChar (c : Char) : Bool :=
  c == ' ' || c == '\t' || c == '\n' || c == '\r'

/-- Leading-whitespace removal. -/
def trimLeft (s : Str) : Str := s.dropWhile isWsChar

/-- Trailing-whitespace removal. -/
def trimRight (s : Str) : Str := (trimLeft s.reverse).reverse

/-- JS `String.prototype.trim`. -/
def jsTrim (s : Str) : Str := trimRight (trimLeft s)

/-- ASCII lower-casing of one character (JS `toLowerCase`; the data is
ASCII). -/
def toLowerChar (c : Char) : Char :=
  if 65 ≤ c.toNat ∧ c.toNat ≤ 90 then Char.ofNat (c.toNat + 32) else c

/-- ASCII upper-casing of one character (JS `toUpperCase`). -/
def toUpperChar (c : Char) : Char :=
  if 97 ≤ c.toNat ∧ c.toNat ≤ 122 then Char.ofNat (c.toNat - 32) else c

/-- JS `toLowerCase` on a string. -/
def toLowerStr (s : Str) : Str := s.map toLowerChar

/-- JS `toUpperCase` on a string. -/
def toUpperStr (s : Str) : Str := s.map toUpperChar

theorem length_dropWhile_le' {α : Type} (p : α → Bool) (l : List α) :
    (l.dropWhile p).length ≤ l.length := by
  induction l with
  | nil => simp [List.dropWhile]
  | cons a l ih =>
    simp only [List.dropWhile]
    split
    · exact Nat.le_succ_of_le ih
    · simp

/-- Worker for `collapseWs`; the flag records whether the previous
character was whitespace (i.e. we are inside a run that already emitted
its space). -/
def collapseWsAux : Bool → Str → Str
  | _, [] => []
  | inRun, c :: rest =>
    if isWsChar c then
      (if inRun then collapseWsAux true rest else ' ' :: collapseWsAux true rest)
    else c :: collapseWsAux false rest

/-- JS `s.replace(/\s+/g, ' ')`: every maximal run of whitespace becomes a
single space. -/
def collapseWs (s : Str) : Str := collapseWsAux false s

/-- JS `s.replace(/"/g, '')`. -/
def stripQuotes (s : Str) : Str := s.filter (fun c => c ≠ '"')

/-- JS `s.includes(pat)`. -/
def strContains (s pat : Str) : Bool :=
  (List.range (s.length + 1)).any (fun i => (s.drop i).take pat.length == pat)

/-- JS `s.split(',')` (plain split, no quote handling). -/
def splitCommaAux : Str → Str → List Str
  | [], cur => [cur.reverse]
  | c :: rest, cur =>
    if c = ',' then cur.reverse :: splitCommaAux rest []
    else splitCommaAux rest (c :: cur)

/-- JS `s.split(',')`. -/
def splitComma (s : Str) : List Str := splitCommaAux s []

/-- ASCII decimal digit test. -/
def isDigitCh (c : Char) : Bool := '0' ≤ c ∧ c ≤ '9'

/-- Numeric value of a digit list (most significant first). -/
def natOfDigits (ds : Str) : Nat :=
  ds.foldl (fun acc c => 10 * acc + (c.toNat - 48)) 0

/--
Exact scaled-decimal number `m / 10^s`, standing for a JS number.  The
values this program computes with are short decimal literals (parsed
coordinates and ratings), which doubles represent and compare exactly, so
integer mantissa/scale arithmetic is a faithful model — and unlike `Rat`
normalization it evaluates inside the kernel.
-/
structure Dec where
  m : Int
  s : Nat
deriving DecidableEq, Repr, Inhabited

/-- A whole number. -/
def Dec.ofInt (n : Int) : Dec := ⟨n, 0⟩

/-- Numeric `≤` on scaled decimals (cross-multiplied by powers of 10). -/
def Dec.le (a b : Dec) : Bool :=
  a.m * (10 : Int) ^ b.s ≤ b.m * (10 : Int) ^ a.s

/-- Is the value numerically zero (JS falsy for numbers, `NaN` aside)? -/
def Dec.isZero (a : Dec) : Bool := a.m = 0

/--
JS `parseFloat`: skip leading whitespace, optional sign, maximal prefix
`digits [. digits] [e|E [sign] digits]`; `NaN` (no digits at all) is
`none`.
-/
def jsParseFloat (s : Str) : Option Dec :=
  let s1 := s.dropWhile isWsChar
  let signAndRest : Int × Str :=
    match s1 with
    | '-' :: r => (-1, r)
    | '+' :: r => (1, r)
    | _ => (1, s1)
  let sign := signAndRest.1
  let s2 := signAndRest.2
  let ip := s2.takeWhile isDigitCh
  let s3 := s2.dropWhile isDigitCh
  let fpAndRest : Str × Str :=
    match s3 with
    | '.' :: r => (r.takeWhile isDigitCh, r.dropWhile isDigitCh)
    | _ => ([], s3)
  let fp := fpAndRest.1
  let s4 := fpAndRest.2
  if ip = [] ∧ fp = [] then none
  else
    let mant : Int := sign * ((natOfDigits ip) * (10 : Int) ^ fp.length + natOfDigits fp)
    let exp : Int :=
      match s4 with
      | 'e' :: r | 'E' :: r =>
        (match r with
         | '-' :: r2 => - (natOfDigits (r2.takeWhile isDigitCh) : Int)
         | '+' :: r2 => (natOfDigits (r2.takeWhile isDigitCh) : Int)
         | _ => (natOfDigits (r.takeWhile isDigitCh) : Int))
      | _ => 0
    if 0 ≤ exp then some ⟨mant * (10 : Int) ^ exp.toNat, fp.length⟩
    else some ⟨mant, fp.length + (-exp).toNat⟩

/-! ## CSV parsing (`parseCSV`, `parseCSVLine` in update-restaurant-data.js) -/

/--
The quote-aware field splitter `parseCSVLine`: a `"` toggles quote state
(and is not emitted), a `,` outside quotes ends the current field,
everything else is appended to the current field.
-/
def parseCSVLineAux : Str → Bool → Str → List Str
  | [], _, cur => [cur.reverse]
  | c :: rest, inQ, cur =>
    if c = '"' then parseCSVLineAux rest (!inQ) cur
    else if c = ',' ∧ inQ = false then cur.reverse :: parseCSVLineAux rest inQ []
    else parseCSVLineAux rest inQ (c :: cur)

/-- JS `parseCSVLine(line)`. -/
def parseCSVLine (line : Str) : List Str := parseCSVLineAux line false []

/--
The logical-line splitter at the top of `parseCSV`: one pass over the
whole text carrying quote state; a `"` toggles quote state (and is kept),
a newline outside quotes ends the current physical accumulation; a line
whose trim is empty is dropped; each kept line is pushed trimmed.
-/
def logicalLinesAux : Str → Bool → Str → List Str
  | [], _, cur =>
    if jsTrim cur.reverse ≠ [] then [jsTrim cur.reverse] else []
  | c :: rest, inQ, cur =>
    if c = '"' then logicalLinesAux rest (!inQ) ('"' :: cur)
    else if c = '\n' ∧ inQ = false then
      (if jsTrim cur.reverse ≠ [] then [jsTrim cur.reverse] else [])
        ++ logicalLinesAux rest inQ []
    else logicalLinesAux rest inQ (c :: cur)

/-- The quote-aware split of the raw text into trimmed, non-blank logical
lines (lines 140–164 of the script). -/
def logicalLines (csvText : Str) : List Str := logicalLinesAux csvText false []

/--
Normalization applied to each cell value (lines 178–180): trim, delete
all `"`, replace embedded newlines by spaces, collapse whitespace runs,
trim again.
-/
def normalizeValue (v : Str) : Str :=
  jsTrim (collapseWs ((stripQuotes (jsTrim v)).map (fun c => if c = '\n' then ' ' else c)))

/-- A parsed row: column name → value, in header order (later duplicates
of a header overwrite earlier ones, as JS object assignment does). -/
abbrev RawRow := List (Str × Str)

/-- Field access `row[header]`; a missing column reads as the empty
string (the JS `undefined` is only ever observed through `?.trim()` /
truthiness, where it behaves like `''`). -/
def getField (row : RawRow) (k : Str) : Str :=
  (((row.reverse).find? (fun p => p.1 == k)).map (fun p => p.2)).getD []

/-- Cell extraction `values[index] ? normalize(values[index]) : ''`. -/
def getVal (values : List Str) (i : Nat) : Str :=
  match values.get? i with
  | some v => if v = [] then [] else normalizeValue v
  | none => []

/-- JS `parseCSV(csvText)`: split into logical lines; fewer than two
lines yields no rows; otherwise the first line gives the headers and
every further line one row. -/
def parseCSV (csvText : Str) : List RawRow :=
  let lines := logicalLines csvText
  if lines.length < 2 then []
  else
    let headers := (parseCSVLine (lines.headI)).map (fun h => stripQuotes (jsTrim h))
    (lines.drop 1).map (fun line =>
      let values := parseCSVLine line
      headers.enum.map (fun p => (p.2, getVal values p.1)))

/-! ## Row-level helpers of the pipeline script -/

/-- JS `validateCoordinates(geocodeScript)` (lines 214–228): reject empty
strings and formula-error sentinels, split on commas, require exactly two
parseable numbers inside the latitude/longitude domains. -/
def validateCoordinates (g : Str) : Option (Dec × Dec) :=
  if g = [] ∨ strContains g ("#NAME".data) ∨ strContains g ("#ERROR".data) then none
  else
    let coords := (splitComma g).map jsTrim
    if coords.length = 2 then
      match jsParseFloat (coords.headI), jsParseFloat ((coords.get? 1).getD []) with
      | some lat, some lng =>
        if (Dec.ofInt (-90)).le lat ∧ lat.le (Dec.ofInt 90)
            ∧ (Dec.ofInt (-180)).le lng ∧ lng.le (Dec.ofInt 180) then
          some (lat, lng)
        else none
      | _, _ => none
    else none

/-- JS `standardizeTag(tag)`: lower-case then trim; null-ish input gives
the empty string. -/
def standardizeTag (t : Str) : Str := jsTrim (toLowerStr t)

/-- Tag processing in `main` (lines 381–385): split on commas,
standardize each token, drop empty tokens. -/
def processTags (tags : Str) : List Str :=
  if tags ≠ [] then
    ((splitComma tags).map standardizeTag).filter (fun t => t ≠ [])
  else []

/-- The static region-code → full-name table (`LOCATION_MAPPINGS`). -/
def locationMappings : List (Str × Str) :=
  [("AL".data, "Alabama".data), ("AK".data, "Alaska".data), ("AZ".data, "Arizona".data),
   ("AR".data, "Arkansas".data), ("CA".data, "California".data), ("CO".data, "Colorado".data),
   ("CT".data, "Connecticut".data), ("DE".data, "Delaware".data), ("FL".data, "Florida".data),
   ("GA".data, "Georgia".data), ("HI".data, "Hawaii".data), ("ID".data, "Idaho".data),
   ("IL".data, "Illinois".data), ("IN".data, "Indiana".data), ("IA".data, "Iowa".data),
   ("KS".data, "Kansas".data), ("KY".data, "Kentucky".data), ("LA".data, "Louisiana".data),
   ("ME".data, "Maine".data), ("MD".data, "Maryland".data), ("MA".data, "Massachusetts".data),
   ("MI".data, "Michigan".data), ("MN".data, "Minnesota".data), ("MS".data, "Mississippi".data),
   ("MO".data, "Missouri".data), ("MT".data, "Montana".data), ("NE".data, "Nebraska".data),
   ("NV".data, "Nevada".data), ("NH".data, "New Hampshire".data), ("NJ".data, "New Jersey".data),
   ("NM".data, "New Mexico".data), ("NY".data, "New York".data), ("NC".data, "North Carolina".data),
   ("ND".data, "North Dakota".data), ("OH".data, "Ohio".data), ("OK".data, "Oklahoma".data),
   ("OR".data, "Oregon".data), ("PA".data, "Pennsylvania".data), ("RI".data, "Rhode Island".data),
   ("SC".data, "South Carolina".data), ("SD".data, "South Dakota".data),
   ("TN".data, "Tennessee".data), ("TX".data, "Texas".data), ("UT".data, "Utah".data),
   ("VT".data, "Vermont".data), ("VA".data, "Virginia".data), ("WA".data, "Washington".data),
   ("WV".data, "West Virginia".data), ("WI".data, "Wisconsin".data), ("WY".data, "Wyoming".data),
   ("PR".data, "Puerto Rico".data), ("DC".data, "District of Columbia".data)]

/-- The parsed shape produced by `parseLocationData`. -/
structure LocationData where
  city : Str
  region : Str
  fullRegion : Str
  fullLocation : Str
  originalLocation : Str
  cityStandardized : Str
  fullRegionStandardized : Str
  fullLocationStandardized : Str
deriving DecidableEq, Repr, Inhabited

/-- JS `parseLocationData(locationString)` (lines 236–284). -/
def parseLocationData (loc : Str) : LocationData :=
  if loc = [] then
    ⟨[], [], [], [], [], [], [], []⟩
  else
    let parts := (splitComma loc).map jsTrim
    if parts.length ≥ 2 then
      let city := parts.headI
      let region := (parts.get? 1).getD []
      let fullRegion :=
        (((locationMappings.find? (fun p => p.1 == toUpperStr region)).map
          (fun p => p.2)).getD region)
      { city := city, region := region, fullRegion := fullRegion,
        fullLocation := city ++ (", ".data) ++ fullRegion,
        originalLocation := loc,
        cityStandardized := standardizeTag city,
        fullRegionStandardized := standardizeTag fullRegion,
        fullLocationStandardized := standardizeTag (city ++ (", ".data) ++ fullRegion) }
    else
      { city := loc, region := [], fullRegion := [],
        fullLocation := loc, originalLocation := loc,
        cityStandardized := standardizeTag loc,
        fullRegionStandardized := [],
        fullLocationStandardized := standardizeTag loc }

/-- The first position where `/video/` followed by at least one digit
matches, returning the maximal digit run after it (the regex
`/\/video\/(\d+)/` of `getCachedThumbnailPath`). -/
def findVideoId : Str → Option Str
  | [] => none
  | c :: rest =>
    if (c :: rest).take 7 = ("/video/".data) then
      let ds := ((c :: rest).drop 7).takeWhile isDigitCh
      if ds = [] then findVideoId rest else some ds
    else findVideoId rest

/-- JS `getCachedThumbnailPath(tikTokVideoUrl)`. -/
def getCachedThumbnailPath (url : Str) : Option Str :=
  if url = [] then none
  else
    match findVideoId url with
    | some ds => some (("thumbnails/".data) ++ ds ++ (".jpeg".data))
    | none => none

/-- JS rating coercion in the pipeline (line 402):
`parseFloat(row['Bigger Belly Rating']) || 0` — `NaN` and `0` are falsy
and give `0`, anything else passes through unclamped. -/
def pipelineRating (s : Str) : Dec :=
  match jsParseFloat s with
  | none => Dec.ofInt 0
  | some x => if x.isZero then Dec.ofInt 0 else x

/-- The client-side rating coercion in `app.js` (lines 556–557): values
that fail to parse or fall outside `[0, 10]` become `0`. -/
def appValidRating (s : Str) : Dec :=
  match jsParseFloat s with
  | none => Dec.ofInt 0
  | some r =>
    if (Dec.ofInt 0).le r ∧ r.le (Dec.ofInt 10) then r else Dec.ofInt 0

/-! ## Cache-key generation and the client coordinate resolver
(part_000, lines 814–860) -/

/-- Is `c` a lower-case letter or a digit (the class kept by
`replace(/[^a-z0-9]/g, '_')`)? -/
def isLowerAlnum (c : Char) : Bool :=
  ('a' ≤ c ∧ c ≤ 'z') ∨ ('0' ≤ c ∧ c ≤ '9')

/-- Worker for `collapseUnderscores`; the flag records whether the
previous character was an underscore. -/
def collapseUnderscoresAux : Bool → Str → Str
  | _, [] => []
  | inRun, c :: rest =>
    if c = '_' then
      (if inRun then collapseUnderscoresAux true rest
       else '_' :: collapseUnderscoresAux true rest)
    else c :: collapseUnderscoresAux false rest

/-- JS `replace(/_+/g, '_')`: collapse each run of underscores to one. -/
def collapseUnderscores (s : Str) : Str := collapseUnderscoresAux false s

/-- JS `generateRestaurantHash(restaurant, address)`: lower-case
`` `${restaurant}_${address}` ``, replace every character outside
`[a-z0-9]` by `_`, collapse underscore runs, truncate to 50. -/
def generateRestaurantHash (restaurant address : Str) : Str :=
  (collapseUnderscores
    (((restaurant ++ '_' :: address).map toLowerChar).map
      (fun c => if isLowerAlnum c then c else '_'))).take 50

/-- The persistent geocode cache: `cache.restaurants` maps a key to an
entry carrying `coordinates.lat` / `coordinates.lng`. -/
structure GeoCache where
  restaurants : List (Str × (Dec × Dec))
deriving DecidableEq, Repr

/-- Lookup `cache.restaurants[hash]`. -/
def cacheLookup (c : GeoCache) (k : Str) : Option (Dec × Dec) :=
  (c.restaurants.find? (fun p => p.1 == k)).map (fun p => p.2)

/-- Provenance tag returned by `getRestaurantCoordinates`. -/
inductive CoordSource where
  | cache
  | csvGeocode
  | noneSrc
deriving DecidableEq, Repr

/-- Result of `getRestaurantCoordinates`; `none` latitude/longitude model
the JS `NaN` of the no-coordinates case. -/
structure CoordResult where
  lat : Option Dec
  lng : Option Dec
  source : CoordSource
deriving DecidableEq, Repr

/-- The `GeoCode Script` fallback inside `getRestaurantCoordinates`
(part_000 lines 838–853): a non-empty in-row hint split on commas into
exactly two parseable numbers — with no domain-bounds check. -/
def tryGeoCodeScript (row : RawRow) : CoordResult :=
  let g := jsTrim (getField row ("GeoCode Script".data))
  if g ≠ [] then
    let coords := (splitComma g).map jsTrim
    if coords.length = 2 then
      match jsParseFloat (coords.headI), jsParseFloat ((coords.get? 1).getD []) with
      | some lat, some lng => ⟨some lat, some lng, .csvGeocode⟩
      | _, _ => ⟨none, none, .noneSrc⟩
    else ⟨none, none, .noneSrc⟩
  else ⟨none, none, .noneSrc⟩

/-- JS `getRestaurantCoordinates(row, cache)` (part_000 lines 824–860):
cache first, then the in-row `GeoCode Script` hint, else no coordinates. -/
def getRestaurantCoordinates (row : RawRow) (cache : Option GeoCache) : CoordResult :=
  let h := generateRestaurantHash (getField row ("Restaurant".data)) (getField row ("Address".data))
  match cache.bind (fun c => cacheLookup c h) with
  | some p => ⟨some p.1, some p.2, .cache⟩
  | none => tryGeoCodeScript row

/-! ## The pipeline `main` of update-restaurant-data.js -/

/-- Pure environment standing for the pipeline's external collaborators:
geocoding responses, the thumbnail store on disk, the TikTok oembed
endpoint, and download outcomes. -/
structure PipelineEnv where
  geo : Str → Option Str
  fileExists : Str → Bool
  oembedThumb : Str → Option Str
  downloadOk : Str → Str → Bool

/-- JS `geocodeAddress(address, apiKey)`: empty address short-circuits to
null; otherwise the external service's answer (null on any failure). -/
def geocodeAddress (env : PipelineEnv) (address : Str) : Option Str :=
  if address = [] then none else env.geo address

/-- JS `fetchTikTokThumbnail(url)`: null unless the URL mentions
`tiktok.com`; an empty `thumbnail_url` is falsy and becomes null. -/
def fetchTikTokThumbnail (env : PipelineEnv) (url : Str) : Option Str :=
  if url = [] ∨ strContains url ("tiktok.com".data) = false then none
  else
    match env.oembedThumb url with
    | none => none
    | some t => if t = [] then none else some t

/-- One output record (the object literal at lines 391–407), fields in
the JS insertion order. -/
structure Restaurant where
  reviewer : Str
  restaurant : Str
  tags : List Str
  location : Str
  locationData : LocationData
  address : Str
  city : Str
  googleMapsLink : Str
  latitude : Dec
  longitude : Dec
  rating : Dec
  tikTokVideo : Str
  tikTokThumbnail : Str
  tikTokThumbnailFallback : Str
  datePosted : Str
deriving DecidableEq, Repr, Inhabited

/-- What one loop iteration of `main` does with a row: emit a record, or
skip it for a missing required field, a coordinate failure (counted
toward `coordinateErrors`), or a missing thumbnail. -/
inductive RowOutcome where
  | ok (r : Restaurant)
  | skipMissing
  | skipCoord
  | skipThumb
deriving DecidableEq, Repr

/-- The thumbnail resolution block (lines 350–371): use the on-disk
cached file if present, else fetch from oembed and download (falling
back to the remote URL when the download fails); null when nothing
worked. -/
def resolveThumbnail (env : PipelineEnv) (url : Str) : Option Str :=
  let cpath := getCachedThumbnailPath url
  let thumbExists := match cpath with | some p => env.fileExists p | none => false
  if thumbExists then cpath
  else if url ≠ [] ∧ cpath.isSome then
    match fetchTikTokThumbnail env url with
    | some fetched =>
      if env.downloadOk fetched (cpath.getD []) then cpath else some fetched
    | none => none
  else none

/-- One iteration of the row loop of `main` (lines 323–411). -/
def processRow (env : PipelineEnv) (row : RawRow) : RowOutcome :=
  let name := jsTrim (getField row ("Restaurant".data))
  let addr := jsTrim (getField row ("Address".data))
  if name = [] ∨ addr = [] then .skipMissing
  else
    match geocodeAddress env addr with
    | none => .skipCoord
    | some geoStr =>
      match validateCoordinates geoStr with
      | none => .skipCoord
      | some coords =>
        let url := jsTrim (getField row ("TikTok Video".data))
        match resolveThumbnail env url with
        | none => .skipThumb
        | some thumb =>
          let locationData := parseLocationData (getField row ("Location".data))
          .ok {
            reviewer :=
              if getField row ("Reviewer".data) ≠ [] then
                standardizeTag (getField row ("Reviewer".data))
              else "unknown".data,
            restaurant := name,
            tags := processTags (getField row ("Tags".data)),
            location := locationData.originalLocation,
            locationData := locationData,
            address := addr,
            city := standardizeTag locationData.city,
            googleMapsLink := jsTrim (getField row ("Google Maps Link".data)),
            latitude := coords.1,
            longitude := coords.2,
            rating := pipelineRating (getField row ("Bigger Belly Rating".data)),
            tikTokVideo := url,
            tikTokThumbnail := thumb,
            tikTokThumbnailFallback := thumb,
            datePosted := jsTrim (getField row ("Date of Posted Video".data)) }

/-- Extract the record of an `ok` outcome. -/
def okOf : RowOutcome → Option Restaurant
  | .ok r => some r
  | _ => none

/-- Did the outcome increment `coordinateErrors`? -/
def isSkipCoord : RowOutcome → Bool
  | .skipCoord => true
  | _ => false

/--
The high-failure-rate guard of `main` (lines 417–418):
`coordinateErrors / rawData.length > 0.5 && coordinateErrors > 10`.
JS divides as floating point: with `total = 0` the rate is `NaN`
(when `errors = 0`; the comparison is then false) or `Infinity`
(when `errors ≠ 0`); for the small integer counts involved,
`errors / total > 0.5` holds exactly when `2 * errors > total`.
-/
def rateGuard (errors total : Nat) : Bool :=
  (if total = 0 then errors ≠ 0 else 2 * errors > total) && decide (errors > 10)

/-- The data written to `data/restaurants.json` (besides the two
timestamps, which are serialized separately below). -/
structure OutputData where
  totalRestaurants : Nat
  restaurants : List Restaurant
deriving DecidableEq, Repr

/-- One `main` attempt either reaches the write (success) or throws
(fetch exhaustion or the high-failure-rate guard). -/
inductive AttemptResult where
  | success (out : OutputData)
  | failure
deriving DecidableEq, Repr

/-- The per-attempt external world: the fetched CSV body (`none` when
`fetchCSVWithRetry` ultimately threw) and the row-level collaborators. -/
structure AttemptEnv where
  fetched : Option Str
  env : PipelineEnv

/-- One iteration of the `mainAttempt` loop, up to (and excluding) the
file write: fetch, parse, process rows, evaluate the guard. -/
def runAttempt (a : AttemptEnv) : AttemptResult :=
  match a.fetched with
  | none => .failure
  | some text =>
    let rawData := parseCSV text
    let outcomes := rawData.map (processRow a.env)
    let restaurants := outcomes.filterMap okOf
    let coordinateErrors := (outcomes.filter isSkipCoord).length
    if rateGuard coordinateErrors rawData.length then .failure
    else .success ⟨restaurants.length, restaurants⟩

/-- The overall result of `main`'s retry loop: a written dataset, or
`process.exit(1)` with nothing written. -/
inductive MainResult where
  | written (out : OutputData)
  | exitFailure
deriving DecidableEq, Repr

/-- The `mainAttempt` loop from a given attempt number (fuel counts the
remaining loop iterations; it never runs out because attempt 3 exits): a
successful attempt writes and returns; a failed third attempt exits with
status 1; otherwise the whole pipeline is retried from the fetch (after
the fixed 30-second cool-down, which has no observable effect in this
model). -/
def runMainFrom (envs : Nat → AttemptEnv) : Nat → Nat → MainResult
  | _, 0 => .exitFailure
  | attempt, fuel + 1 =>
    match runAttempt (envs attempt) with
    | .success out => .written out
    | .failure =>
      if 3 ≤ attempt then .exitFailure else runMainFrom envs (attempt + 1) fuel

/-- `main`'s retry loop (`for mainAttempt = 1..3`), given the external
world of each attempt. -/
def runMain (envs : Nat → AttemptEnv) : MainResult := runMainFrom envs 1 3

/-- Outcome of the environment-variable checks at the top of `main`
(lines 295–304). -/
inductive StartupResult where
  | fatalMissingUrl
  | fatalMissingApiKey
  | proceed
deriving DecidableEq, Repr

/-- JS truthiness of an environment variable (unset or empty is falsy). -/
def envTruthy : Option Str → Bool
  | none => false
  | some s => s ≠ []

/-- The startup configuration check of `main`: a missing/empty
`GOOGLE_SHEETS_URL` throws first, then a missing/empty
`GOOGLE_MAPS_API_KEY` throws; only then does processing start. -/
def mainStartup (csvUrl googleApiKey : Option Str) : StartupResult :=
  if envTruthy csvUrl = false then .fatalMissingUrl
  else if envTruthy googleApiKey = false then .fatalMissingApiKey
  else .proceed

/-! ## Serialization of the output file
(`JSON.stringify(outputData, null, 2)`, line 438), hand-specialized to
the fixed shape of `outputData`.  JS double-to-decimal printing is
abstracted by a `showNum` parameter; no claim depends on its digits. -/

/-- Decimal digits of a natural number. -/
def natToStr (n : Nat) : Str := Nat.toDigits 10 n

/-- A concrete number printer used to instantiate `showNum` in closed
statements (prints the mantissa and, when non-zero, the scale). -/
def showDecNum (q : Dec) : Str :=
  (if q.m < 0 then ['-'] else []) ++ natToStr q.m.natAbs ++
    (if q.s = 0 then [] else 'e' :: '-' :: natToStr q.s)

/-- JSON string escaping of one character (the escapes that can arise
from this data). -/
def jsonEscapeChar (c : Char) : Str :=
  if c = '"' then ['\\', '"']
  else if c = '\\' then ['\\', '\\']
  else if c = '\n' then ['\\', 'n']
  else if c = '\r' then ['\\', 'r']
  else if c = '\t' then ['\\', 't']
  else [c]

/-- JSON string-body escaping. -/
def jsonEsc (s : Str) : Str := s.foldr (fun c acc => jsonEscapeChar c ++ acc) []

/-- A JSON string literal. -/
def jsonStr (s : Str) : Str := '"' :: jsonEsc s ++ ['"']

/-- Newline followed by `ind` spaces (the 2-space-indent pretty form). -/
def nlInd (ind : Nat) : Str := '\n' :: List.replicate ind ' '

/-- Interpose a separator. -/
def joinSep (sep : Str) : List Str → Str
  | [] => []
  | [x] => x
  | x :: y :: xs => x ++ sep ++ joinSep sep (y :: xs)

/-- A pretty-printed JSON array of pre-rendered items (each item placed
at `ind + 2`, closing bracket at `ind`). -/
def jsonArr (ind : Nat) (items : List Str) : Str :=
  if items = [] then "[]".data
  else ('[' :: joinSep [','] (items.map (fun s => nlInd (ind + 2) ++ s))) ++ nlInd ind ++ [']']

/-- A pretty-printed JSON object of pre-rendered fields. -/
def jsonObj (ind : Nat) (fields : List (Str × Str)) : Str :=
  if fields = [] then "{}".data
  else
    ('{' :: joinSep [','] (fields.map (fun p => nlInd (ind + 2) ++ jsonStr p.1 ++ ':' :: ' ' :: p.2)))
      ++ nlInd ind ++ ['}']

/-- Serialization of a `locationData` value.  The empty-location early
return of `parseLocationData` carries only four keys; both other shapes
carry eight. -/
def serializeLocationData (ind : Nat) (ld : LocationData) : Str :=
  if ld = ⟨[], [], [], [], [], [], [], []⟩ then
    jsonObj ind
      [("city".data, jsonStr ld.city), ("region".data, jsonStr ld.region),
       ("fullLocation".data, jsonStr ld.fullLocation),
       ("cityStandardized".data, jsonStr ld.cityStandardized)]
  else
    jsonObj ind
      [("city".data, jsonStr ld.city), ("region".data, jsonStr ld.region),
       ("fullRegion".data, jsonStr ld.fullRegion),
       ("fullLocation".data, jsonStr ld.fullLocation),
       ("originalLocation".data, jsonStr ld.originalLocation),
       ("cityStandardized".data, jsonStr ld.cityStandardized),
       ("fullRegionStandardized".data, jsonStr ld.fullRegionStandardized),
       ("fullLocationStandardized".data, jsonStr ld.fullLocationStandardized)]

/-- Serialization of one restaurant record, fields in insertion order. -/
def serializeRestaurant (showNum : Dec → Str) (ind : Nat) (r : Restaurant) : Str :=
  jsonObj ind
    [("reviewer".data, jsonStr r.reviewer),
     ("restaurant".data, jsonStr r.restaurant),
     ("tags".data, jsonArr (ind + 2) (r.tags.map jsonStr)),
     ("location".data, jsonStr r.location),
     ("locationData".data, serializeLocationData (ind + 2) r.locationData),
     ("address".data, jsonStr r.address),
     ("city".data, jsonStr r.city),
     ("googleMapsLink".data, jsonStr r.googleMapsLink),
     ("latitude".data, showNum r.latitude),
     ("longitude".data, showNum r.longitude),
     ("rating".data, showNum r.rating),
     ("tikTokVideo".data, jsonStr r.tikTokVideo),
     ("tikTokThumbnail".data, jsonStr r.tikTokThumbnail),
     ("tikTokThumbnailFallback".data, jsonStr r.tikTokThumbnailFallback),
     ("datePosted".data, jsonStr r.datePosted)]

/-- Serialization of the `restaurants` array. -/
def serializeRestaurants (showNum : Dec → Str) (l : List Restaurant) : Str :=
  jsonArr 2 (l.map (serializeRestaurant showNum 4))

/-- The serialized bytes written to `data/restaurants.json`: the
`outputData` object of lines 423–428 with `version` and `lastUpdated`
both set to the run's current ISO timestamp `now`. -/
def serializeOutput (showNum : Dec → Str) (now : Str) (out : OutputData) : Str :=
  ("\x7b\n  \"version\": \"".data) ++ jsonEsc now
    ++ ("\",\n  \"lastUpdated\": \"".data) ++ jsonEsc now
    ++ ("\",\n  \"totalRestaurants\": ".data) ++ natToStr out.totalRestaurants
    ++ (",\n  \"restaurants\": ".data) ++ serializeRestaurants showNum out.restaurants
    ++ ("\n\x7d".data)

/-- Row update used to state field-independence: JS assignment
`row[k] = v` is modelled by appending, since `getField` reads the last
binding of a key. -/
def overrideField (row : RawRow) (k v : Str) : RawRow := row ++ [(k, v)]

/-- The cache key computed inside `getRestaurantCoordinates`. -/
def rowHash (row : RawRow) : Str :=
  generateRestaurantHash (getField row ("Restaurant".data)) (getField row ("Address".data))

/-- Coordinate-failure count and row count of one attempt (the
`coordinateErrors` / `rawData.length` pair fed to the guard); `none`
when the fetch threw. -/
def attemptStats (a : AttemptEnv) : Option (Nat × Nat) :=
  match a.fetched with
  | none => none
  | some text =>
    some ((((parseCSV text).map (processRow a.env)).filter isSkipCoord).length,
      (parseCSV text).length)

/-! ## General list/character lemmas -/

theorem dropWhile_idem' {α : Type} (p : α → Bool) (l : List α) :
    (l.dropWhile p).dropWhile p = l.dropWhile p := by
  induction l with
  | nil => simp [List.dropWhile]
  | cons a l ih =>
    by_cases h : p a
    · simp [List.dropWhile_cons, h, ih]
    · simp [List.dropWhile_cons, h]

theorem dropWhile_suffix' {α : Type} (p : α → Bool) (l : List α) :
    l.dropWhile p <:+ l := by
  induction l with
  | nil => simp [List.dropWhile]
  | cons a l ih =>
    by_cases h : p a
    · simpa [List.dropWhile_cons, h] using ih.trans (List.suffix_cons a l)
    · simp [List.dropWhile_cons, h]

theorem mem_of_mem_trimLeft {c : Char} {s : Str} (h : c ∈ trimLeft s) : c ∈ s :=
  (dropWhile_suffix' isWsChar s).sublist.subset h

theorem mem_of_mem_trimRight {c : Char} {s : Str} (h : c ∈ trimRight s) : c ∈ s := by
  unfold trimRight at h
  have h2 : c ∈ trimLeft s.reverse := List.mem_reverse.mp h
  exact List.mem_reverse.mp (mem_of_mem_trimLeft h2)

theorem mem_of_mem_jsTrim {c : Char} {s : Str} (h : c ∈ jsTrim s) : c ∈ s :=
  mem_of_mem_trimLeft (mem_of_mem_trimRight h)

theorem dropWhile_eq_self_of_prefix {α : Type} (p : α → Bool) {l l' : List α}
    (h : l.dropWhile p = l) (hp : l' <+: l) : l'.dropWhile p = l' := by
  cases l' with
  | nil => simp [List.dropWhile]
  | cons a t =>
    obtain ⟨s, hs⟩ := hp
    subst hs
    rw [List.cons_append] at h
    by_cases hpa : p a
    · exfalso
      rw [List.dropWhile_cons_of_pos hpa] at h
      have hlen := congrArg List.length h
      have hle := length_dropWhile_le' p (t ++ s)
      simp only [List.length_cons] at hlen
      omega
    · simp [List.dropWhile_cons_of_neg hpa]

theorem prefix_trimRight (s : Str) : trimRight s <+: s := by
  unfold trimRight trimLeft
  have h := dropWhile_suffix' isWsChar s.reverse
  have := List.reverse_prefix.mpr h
  simpa using this

theorem trimLeft_idem (s : Str) : trimLeft (trimLeft s) = trimLeft s :=
  dropWhile_idem' isWsChar s

theorem jsTrim_idem (s : Str) : jsTrim (jsTrim s) = jsTrim s := by
  unfold jsTrim
  have hyl : trimLeft (trimLeft s) = trimLeft s := trimLeft_idem s
  have h1 : trimLeft (trimRight (trimLeft s)) = trimRight (trimLeft s) :=
    dropWhile_eq_self_of_prefix isWsChar hyl (prefix_trimRight (trimLeft s))
  rw [h1]
  unfold trimRight trimLeft
  rw [List.reverse_reverse, dropWhile_idem']

theorem map_eq_self_of_forall {α : Type} (f : α → α) (l : List α)
    (h : ∀ a ∈ l, f a = a) : l.map f = l := by
  induction l with
  | nil => rfl
  | cons a t ih =>
    simp only [List.map_cons, h a (by simp)]
    rw [ih (fun x hx => h x (by simp [hx]))]

theorem char_ofNat_toNat (n : Nat) (h : n < 55296) : (Char.ofNat n).toNat = n := by
  have hv : n.isValidChar := Or.inl h
  simp only [Char.ofNat, hv, dif_pos, Char.ofNatAux, Char.toNat, UInt32.ofNat']
  simp [UInt32.toNat]

theorem toLowerChar_idem (c : Char) : toLowerChar (toLowerChar c) = toLowerChar c := by
  unfold toLowerChar
  split
  · next h =>
    have ht : (Char.ofNat (c.toNat + 32)).toNat = c.toNat + 32 :=
      char_ofNat_toNat _ (by omega)
    rw [if_neg]
    rw [ht]
    omega
  · rfl

/-! ## Claim C3 -/

/-- The claim's scenario: a configured source URL but no geocoding
credential.  The code throws `GOOGLE_MAPS_API_KEY environment variable is
required` at startup instead of running the pipeline. -/
theorem c3_counterexample :
    mainStartup (some ("https://example.com/export.csv".data)) none
        = .fatalMissingApiKey
    ∧ mainStartup (some ("https://example.com/export.csv".data)) none
        ≠ .proceed :=
  ⟨by decide, by decide⟩

/-- C3 (amended): startup proceeds to processing iff BOTH the source URL
and the geocoding credential are configured and non-empty; the absence of
either one is a startup-fatal configuration error. -/
theorem c3_amended_startup_fatal : ∀ (u k : Option Str),
    mainStartup u k = .proceed ↔ (envTruthy u = true ∧ envTruthy k = true) := by
  intro u k
  unfold mainStartup
  cases hu : envTruthy u <;> cases hk : envTruthy k <;> simp [hu, hk]

/-! ## Claim C7 -/

/-- The claim's whitespace clause fails: a leading space in the name
becomes a leading underscore in the key, so keys differing only in
surrounding whitespace differ. -/
theorem c7_counterexample :
    generateRestaurantHash (" Foo".data) ("Bar".data) = ("_foo_bar".data)
    ∧ generateRestaurantHash ("Foo".data) ("Bar".data) = ("foo_bar".data)
    ∧ generateRestaurantHash (" Foo".data) ("Bar".data)
        ≠ generateRestaurantHash ("Foo".data) ("Bar".data) :=
  ⟨by decide, by decide, by decide⟩

theorem map_toLower_template (n a : Str) :
    (n ++ '_' :: a).map toLowerChar = toLowerStr n ++ '_' :: toLowerStr a := by
  have h : toLowerChar '_' = '_' := by decide
  simp [toLowerStr, List.map_append, h]

/-- C7 (amended): the cache key is a pure function of the (name, address)
pair — no other column enters `generateRestaurantHash` — and letter-case
differences collapse to the same key; surrounding whitespace, however, is
replaced by underscores rather than stripped, so it can change the key. -/
theorem c7_amended_cache_key : ∀ n1 n2 a1 a2 : Str,
    toLowerStr n1 = toLowerStr n2 → toLowerStr a1 = toLowerStr a2 →
    generateRestaurantHash n1 a1 = generateRestaurantHash n2 a2 := by
  intro n1 n2 a1 a2 h1 h2
  unfold generateRestaurantHash
  rw [map_toLower_template, map_toLower_template, h1, h2]

theorem c7_witness :
    generateRestaurantHash ("FOO".data) ("BaR".data)
      = generateRestaurantHash ("foo".data) ("bar".data) :=
  c7_amended_cache_key _ _ _ _ (by decide) (by decide)

/-! ## Claim C9 -/

/-- The claim's de-duplication clause fails: the tag pipeline is
split/standardize/filter with no de-duplication, so `"noodles, Noodles"`
yields the duplicate list `["noodles", "noodles"]`. -/
theorem c9_counterexample :
    processTags ("noodles, Noodles".data) = [("noodles".data), ("noodles".data)]
    ∧ ¬ (processTags ("noodles, Noodles".data)).Nodup :=
  ⟨by decide, by decide⟩

/-- C9 (amended): every tag emitted for a record is non-empty,
lower-cased and trimmed (split on commas, standardized, empties
discarded) — but duplicates are kept; no per-record de-duplication
happens. -/
theorem c9_amended_tags : ∀ (s t : Str), t ∈ processTags s →
    t ≠ [] ∧ toLowerStr t = t ∧ jsTrim t = t := by
  intro s t ht
  unfold processTags at ht
  split at ht
  · obtain ⟨hm, hne⟩ := List.mem_filter.mp ht
    obtain ⟨x, _, hsx⟩ := List.mem_map.mp hm
    subst hsx
    refine ⟨by simpa using hne, ?_, ?_⟩
    · unfold standardizeTag
      apply map_eq_self_of_forall
      intro c hc
      have hc2 : c ∈ toLowerStr x := mem_of_mem_jsTrim hc
      obtain ⟨d, _, hcd⟩ := List.mem_map.mp hc2
      subst hcd
      exact toLowerChar_idem d
    · unfold standardizeTag
      exact jsTrim_idem _
  · cases ht

theorem c9_witness :
    ("noodles".data ≠ ([] : Str))
    ∧ toLowerStr ("noodles".data) = "noodles".data
    ∧ jsTrim ("noodles".data) = "noodles".data :=
  c9_amended_tags (" Noodles,".data) ("noodles".data) (by decide)

/-! ## Claim C4 -/

/-- A row carrying a valid in-row hint `1,2` whose (name, address) also
has a cache entry `(3, 4)`. -/
def c4row : RawRow :=
  [("Restaurant".data, "A".data), ("Address".data, "B".data),
   ("GeoCode Script".data, "1,2".data)]

/-- A cache holding coordinates `(3, 4)` under the key of `c4row`. -/
def c4cache : GeoCache := ⟨[("a_b".data, (Dec.ofInt 3, Dec.ofInt 4))]⟩

/-- A row whose only coordinate source is an out-of-bounds hint. -/
def c4rowOOB : RawRow :=
  [("Restaurant".data, "A".data), ("Address".data, "B".data),
   ("GeoCode Script".data, "200,300".data)]

/-- The claim's resolution order fails twice: with both a cache entry and
a valid in-row hint present, the resolver returns the cache value (the
hint does not win), and an out-of-bounds hint `200,300` is accepted
verbatim (no domain-bounds validation on the hint path). -/
theorem c4_counterexample :
    getRestaurantCoordinates c4row (some c4cache)
        = ⟨some (Dec.ofInt 3), some (Dec.ofInt 4), .cache⟩
    ∧ tryGeoCodeScript c4row
        = ⟨some (Dec.ofInt 1), some (Dec.ofInt 2), .csvGeocode⟩
    ∧ getRestaurantCoordinates c4rowOOB none
        = ⟨some (Dec.ofInt 200), some (Dec.ofInt 300), .csvGeocode⟩ :=
  ⟨by decide, by decide, by decide⟩

/-- C4 (amended): the client resolver tries the persistent cache (by the
CacheKey of the row's name and address) FIRST; only on a cache miss does
it try the in-row `lat,lng` hint, whose two components need only parse as
numbers (malformed hints are treated as absent, but no domain-bounds
check is applied); with no cache and no usable hint the row gets no
coordinates (source `none`).  There is no external-geocoding path in this
resolver. -/
theorem c4_amended_resolution_order : ∀ (row : RawRow) (c : GeoCache),
    (∀ p : Dec × Dec, cacheLookup c (rowHash row) = some p →
      getRestaurantCoordinates row (some c) = ⟨some p.1, some p.2, .cache⟩)
    ∧ (cacheLookup c (rowHash row) = none →
      getRestaurantCoordinates row (some c) = tryGeoCodeScript row)
    ∧ getRestaurantCoordinates row none = tryGeoCodeScript row := by
  intro row c
  have hc : getRestaurantCoordinates row (some c)
      = match cacheLookup c (rowHash row) with
        | some p => ⟨some p.1, some p.2, .cache⟩
        | none => tryGeoCodeScript row := rfl
  refine ⟨fun p hp => ?_, fun hn => ?_, ?_⟩
  · rw [hc, hp]
  · rw [hc, hn]
  · rfl

theorem c4_witness :
    getRestaurantCoordinates c4row (some c4cache)
      = ⟨some (Dec.ofInt 3), some (Dec.ofInt 4), .cache⟩ :=
  (c4_amended_resolution_order c4row c4cache).1 (Dec.ofInt 3, Dec.ofInt 4) (by decide)

/-! ## Claim C5 -/

theorem getField_override_self (row : RawRow) (k v : Str) :
    getField (overrideField row k v) k = v := by
  unfold getField overrideField
  simp [List.reverse_append, List.find?]

theorem getField_override_ne (row : RawRow) (k v k' : Str) (h : k' ≠ k) :
    getField (overrideField row k v) k' = getField row k' := by
  unfold getField overrideField
  have hb : (k == k') = false := beq_false_of_ne (Ne.symm h)
  simp [List.reverse_append, List.find?, hb]

/-- Environment in which geocoding always answers `40.7, -73.9` and the
thumbnail file already exists on disk. -/
def c5env : PipelineEnv :=
  ⟨fun _ => some ("40.7, -73.9".data), fun _ => true, fun _ => none, fun _ _ => false⟩

/-- A complete usable row whose rating field is the out-of-range `15`. -/
def c5row : RawRow :=
  [("Restaurant".data, "A".data), ("Address".data, "B".data),
   ("TikTok Video".data, "https://www.tiktok.com/@u/video/123".data),
   ("Bigger Belly Rating".data, "15".data)]

/-- The claim's out-of-range clause fails: a row rated `15` is accepted
and its record carries rating `15`, not `0.0` — the pipeline writer does
not clamp to `[0,10]`. -/
theorem c5_counterexample :
    (okOf (processRow c5env c5row)).map Restaurant.rating = some (Dec.ofInt 15)
    ∧ Dec.ofInt 15 ≠ Dec.ofInt 0 :=
  ⟨by decide, by decide⟩

/-- C5 (amended): a row is never rejected because of its rating — row
acceptance is entirely independent of the rating field, whose only effect
is the record's `rating` value `parseFloat(...) || 0`; so unparsable
ratings (`"abc"`) become `0`, while out-of-range ratings (`"15"`) are
kept unchanged by the pipeline writer.  Only the client-side display
coercion in app.js zeroes out-of-range values. -/
theorem c5_amended_rating :
    (∀ (env : PipelineEnv) (row : RawRow) (s : Str),
      processRow env (overrideField row ("Bigger Belly Rating".data) s)
        = (match processRow env row with
           | .ok r => .ok { r with rating := pipelineRating s }
           | o => o))
    ∧ (∀ (env : PipelineEnv) (row : RawRow) (r : Restaurant),
        processRow env row = .ok r →
        r.rating = pipelineRating (getField row ("Bigger Belly Rating".data)))
    ∧ pipelineRating ("abc".data) = Dec.ofInt 0
    ∧ pipelineRating ("15".data) = Dec.ofInt 15
    ∧ appValidRating ("abc".data) = Dec.ofInt 0
    ∧ appValidRating ("15".data) = Dec.ofInt 0 := by
  refine ⟨?_, ?_, by decide, by decide, by decide, by decide⟩
  · intro env row s
    unfold processRow
    rw [getField_override_ne row _ s ("Restaurant".data) (by decide),
        getField_override_ne row _ s ("Address".data) (by decide),
        getField_override_ne row _ s ("TikTok Video".data) (by decide),
        getField_override_ne row _ s ("Location".data) (by decide),
        getField_override_ne row _ s ("Reviewer".data) (by decide),
        getField_override_ne row _ s ("Tags".data) (by decide),
        getField_override_ne row _ s ("Google Maps Link".data) (by decide),
        getField_override_ne row _ s ("Date of Posted Video".data) (by decide),
        getField_override_self row _ s]
    by_cases hm : (jsTrim (getField row ("Restaurant".data)) = []
        ∨ jsTrim (getField row ("Address".data)) = [])
    · simp only [if_pos hm]
    · simp only [if_neg hm]
      cases hg : geocodeAddress env (jsTrim (getField row ("Address".data))) with
      | none => simp [hg]
      | some geoStr =>
        simp only [hg]
        cases hv : validateCoordinates geoStr with
        | none => simp [hv]
        | some coords =>
          simp only [hv]
          cases ht : resolveThumbnail env (jsTrim (getField row ("TikTok Video".data))) with
          | none => simp [ht]
          | some thumb => simp [ht]
  · intro env row r h
    unfold processRow at h
    by_cases hm : (jsTrim (getField row ("Restaurant".data)) = []
        ∨ jsTrim (getField row ("Address".data)) = [])
    · rw [if_pos hm] at h
      cases h
    · rw [if_neg hm] at h
      cases hg : geocodeAddress env (jsTrim (getField row ("Address".data))) with
      | none =>
        simp only [hg] at h
        cases h
      | some geoStr =>
        simp only [hg] at h
        cases hv : validateCoordinates geoStr with
        | none =>
          simp only [hv] at h
          cases h
        | some coords =>
          simp only [hv] at h
          cases ht : resolveThumbnail env (jsTrim (getField row ("TikTok Video".data))) with
          | none =>
            simp only [ht] at h
            cases h
          | some thumb =>
            simp only [ht] at h
            cases h
            rfl

theorem c5_witness :
    ((okOf (processRow c5env c5row)).getD default).rating
      = pipelineRating (getField c5row ("Bigger Belly Rating".data)) :=
  c5_amended_rating.2.1 c5env c5row ((okOf (processRow c5env c5row)).getD default)
    (by decide)

/-! ## Claim C1 -/

theorem validateCoordinates_bounds (g : Str) (p : Dec × Dec)
    (h : validateCoordinates g = some p) :
    (Dec.ofInt (-90)).le p.1 = true ∧ p.1.le (Dec.ofInt 90) = true
    ∧ (Dec.ofInt (-180)).le p.2 = true ∧ p.2.le (Dec.ofInt 180) = true := by
  simp only [validateCoordinates] at h
  split at h
  · cases h
  · split at h
    · split at h
      · split at h
        · next hb =>
          cases h
          exact ⟨hb.1, hb.2.1, hb.2.2.1, hb.2.2.2⟩
        · cases h
      · cases h
    · cases h

theorem getCachedThumbnailPath_ne_nil (url p : Str)
    (h : getCachedThumbnailPath url = some p) : p ≠ [] := by
  unfold getCachedThumbnailPath at h
  split at h
  · cases h
  · split at h
    · cases h
      simp
    · cases h

theorem fetchTikTokThumbnail_ne_nil (env : PipelineEnv) (url t : Str)
    (h : fetchTikTokThumbnail env url = some t) : t ≠ [] := by
  unfold fetchTikTokThumbnail at h
  split at h
  · cases h
  · split at h
    · cases h
    · split at h
      · cases h
      · next hne =>
        cases h
        exact hne

theorem resolveThumbnail_ne_nil (env : PipelineEnv) (url t : Str)
    (h : resolveThumbnail env url = some t) : t ≠ [] := by
  simp only [resolveThumbnail] at h
  split at h
  · exact getCachedThumbnailPath_ne_nil url t h
  · split at h
    · split at h
      · rename_i fetched hf
        split at h
        · exact getCachedThumbnailPath_ne_nil url t h
        · cases h
          exact fetchTikTokThumbnail_ne_nil env url _ hf
      · cases h
    · cases h

theorem processRow_ok_props (env : PipelineEnv) (row : RawRow) (r : Restaurant)
    (h : processRow env row = .ok r) :
    r.restaurant ≠ [] ∧ r.address ≠ []
    ∧ (Dec.ofInt (-90)).le r.latitude = true ∧ r.latitude.le (Dec.ofInt 90) = true
    ∧ (Dec.ofInt (-180)).le r.longitude = true ∧ r.longitude.le (Dec.ofInt 180) = true
    ∧ r.tikTokThumbnail ≠ [] := by
  unfold processRow at h
  by_cases hm : (jsTrim (getField row ("Restaurant".data)) = []
      ∨ jsTrim (getField row ("Address".data)) = [])
  · rw [if_pos hm] at h
    cases h
  · rw [if_neg hm] at h
    push_neg at hm
    cases hg : geocodeAddress env (jsTrim (getField row ("Address".data))) with
    | none =>
      simp only [hg] at h
      cases h
    | some geoStr =>
      simp only [hg] at h
      cases hv : validateCoordinates geoStr with
      | none =>
        simp only [hv] at h
        cases h
      | some coords =>
        simp only [hv] at h
        cases ht : resolveThumbnail env (jsTrim (getField row ("TikTok Video".data))) with
        | none =>
          simp only [ht] at h
          cases h
        | some thumb =>
          simp only [ht] at h
          cases h
          have hb := validateCoordinates_bounds geoStr coords hv
          exact ⟨hm.1, hm.2, hb.1, hb.2.1, hb.2.2.1, hb.2.2.2,
            resolveThumbnail_ne_nil env _ thumb ht⟩

/-- C1: every record that reaches the written dataset has a non-empty
(trimmed) name and address, coordinates inside the latitude/longitude
domains, and a non-empty image reference; rows failing any of these are
skipped whole (`RowOutcome` is all-or-nothing), so no partially-resolved
record is ever written. -/
theorem c1_output_record_invariant : ∀ (a : AttemptEnv) (out : OutputData),
    runAttempt a = .success out → ∀ r ∈ out.restaurants,
      r.restaurant ≠ [] ∧ r.address ≠ []
      ∧ (Dec.ofInt (-90)).le r.latitude = true ∧ r.latitude.le (Dec.ofInt 90) = true
      ∧ (Dec.ofInt (-180)).le r.longitude = true ∧ r.longitude.le (Dec.ofInt 180) = true
      ∧ r.tikTokThumbnail ≠ [] := by
  intro a out h r hr
  simp only [runAttempt] at h
  split at h
  · cases h
  · split at h
    · cases h
    · cases h
      obtain ⟨o, ho, hok⟩ := List.mem_filterMap.mp hr
      obtain ⟨row, _, hpo⟩ := List.mem_map.mp ho
      have hor : processRow a.env row = .ok r := by
        cases o with
        | ok x =>
          simp only [okOf, Option.some_inj] at hok
          rw [hpo, hok]
        | skipMissing => simp [okOf] at hok
        | skipCoord => simp [okOf] at hok
        | skipThumb => simp [okOf] at hok
      exact processRow_ok_props a.env row r hor

/-- One-row CSV export for the C1 witness. -/
def c1csv : Str :=
  ("Restaurant,Address,TikTok Video\nJoe,5 Main St,https://www.tiktok.com/@u/video/42\n").data

/-- Attempt environment for the C1 witness (geocoding answers a fixed
valid coordinate pair, the thumbnail file exists on disk). -/
def c1attempt : AttemptEnv := ⟨some c1csv, c5env⟩

/-- The dataset the C1 witness run writes. -/
def c1out : OutputData :=
  match runAttempt c1attempt with
  | .success o => o
  | .failure => ⟨0, []⟩

/-- The single record of the C1 witness run. -/
def c1rec : Restaurant := c1out.restaurants.headI

theorem c1_witness :
    c1rec.restaurant ≠ [] ∧ c1rec.address ≠ []
    ∧ (Dec.ofInt (-90)).le c1rec.latitude = true
    ∧ c1rec.latitude.le (Dec.ofInt 90) = true
    ∧ (Dec.ofInt (-180)).le c1rec.longitude = true
    ∧ c1rec.longitude.le (Dec.ofInt 180) = true
    ∧ c1rec.tikTokThumbnail ≠ [] :=
  c1_output_record_invariant c1attempt c1out (by decide) c1rec (by decide)

/-! ## Claims C10 and C8 -/

/-- C10: an export with fewer than two logical lines parses to no rows,
and the first attempt then neither throws nor retries — the guard's JS
rate `0/0` is `NaN`, whose comparison with `0.5` is false (and the
`> 10` floor fails anyway) — so `main` writes a dataset with
`totalRestaurants = 0` and an empty list. -/
theorem c10_empty_export : ∀ (t : Str) (p : PipelineEnv),
    (logicalLines t).length < 2 →
    parseCSV t = []
    ∧ runMain (fun _ => AttemptEnv.mk (some t) p) = .written ⟨0, []⟩ := by
  intro t p h
  have hp : parseCSV t = [] := by
    unfold parseCSV
    rw [if_pos h]
  refine ⟨hp, ?_⟩
  unfold runMain runMainFrom
  simp only [runAttempt, hp, rateGuard]
  simp

/-- A pipeline environment in which every external call fails. -/
def pEnvFail : PipelineEnv :=
  ⟨fun _ => none, fun _ => false, fun _ => none, fun _ _ => false⟩

theorem c10_witness :
    parseCSV ("Restaurant,Address".data) = []
    ∧ runMain (fun _ => AttemptEnv.mk (some ("Restaurant,Address".data)) pEnvFail)
        = .written ⟨0, []⟩ :=
  c10_empty_export ("Restaurant,Address".data) pEnvFail (by decide)

/-- C8: (a) when an attempt's coordinate-failure count exceeds both the
50 % rate threshold (`2·errors > total`, the exact JS float comparison
for these counts) and the absolute floor of 10, the attempt throws before
any write; (b) three failed attempts exhaust the retry loop: the process
exits with a non-zero status and no dataset of any kind is written. -/
theorem c8_retry_exhaustion :
    (∀ (a : AttemptEnv) (e tot : Nat), attemptStats a = some (e, tot) →
      rateGuard e tot = true → runAttempt a = .failure)
    ∧ (∀ envs : Nat → AttemptEnv,
        runAttempt (envs 1) = .failure → runAttempt (envs 2) = .failure →
        runAttempt (envs 3) = .failure →
        runMain envs = .exitFailure ∧ ∀ out, runMain envs ≠ .written out) := by
  constructor
  · intro a e tot hs hg
    unfold attemptStats at hs
    split at hs
    · cases hs
    · rename_i text hf
      cases hs
      simp only [runAttempt, hf, hg, if_pos]
  · intro envs h1 h2 h3
    have hm : runMain envs = .exitFailure := by
      unfold runMain runMainFrom
      rw [h1]
      simp only []
      unfold runMainFrom
      rw [h2]
      simp only []
      unfold runMainFrom
      rw [h3]
      simp
    exact ⟨hm, fun out hw => by rw [hm] at hw; cases hw⟩

/-- A 13-line export whose 12 data rows all fail geocoding: 12 of 12
coordinate failures, beyond both the 50 % threshold and the floor of
10. -/
def c8csv : Str :=
  ("Restaurant,Address\nA,B\nA,B\nA,B\nA,B\nA,B\nA,B\nA,B\nA,B\nA,B\nA,B\nA,B\nA,B".data)

/-- The attempt environment of the C8 witness. -/
def c8attempt : AttemptEnv := ⟨some c8csv, pEnvFail⟩

theorem c8_witness : runMain (fun _ => c8attempt) = .exitFailure :=
  (c8_retry_exhaustion.2 (fun _ => c8attempt) (by decide) (by decide) (by decide)).1

/-! ## Claim C6 -/

theorem mem_collapseWsAux (c : Char) : ∀ (s : Str) (b : Bool),
    c ∈ collapseWsAux b s → c = ' ' ∨ isWsChar c = false := by
  intro s
  induction s with
  | nil =>
    intro b h
    cases h
  | cons a rest ih =>
    intro b h
    simp only [collapseWsAux] at h
    split at h
    · split at h
      · exact ih _ h
      · rcases List.mem_cons.mp h with h | h
        · exact Or.inl h
        · exact ih _ h
    · rename_i hw
      rcases List.mem_cons.mp h with h | h
      · subst h
        exact Or.inr (by simpa using hw)
      · exact ih _ h

theorem normalizeValue_no_newline (v : Str) : '\n' ∉ normalizeValue v := by
  intro h
  unfold normalizeValue at h
  have h2 := mem_of_mem_jsTrim h
  unfold collapseWs at h2
  rcases mem_collapseWsAux _ _ _ h2 with h3 | h3
  · exact absurd h3 (by decide)
  · exact absurd h3 (by decide)

theorem getVal_no_newline (values : List Str) (i : Nat) :
    '\n' ∉ getVal values i := by
  unfold getVal
  split
  · split
    · simp
    · exact normalizeValue_no_newline _
  · simp

/-- C6: the parser yields exactly one row per logical record — the
quote-state of `logicalLines` is carried across the whole text, so a
quoted field spanning physical lines stays in one record, and the row
count is the number of non-blank logical lines minus the header — and
every parsed field value has passed newline replacement plus whitespace
collapsing, so no field value contains a raw newline. -/
theorem c6_parser_logical_records : ∀ t : Str,
    (parseCSV t).length
      = (if (logicalLines t).length < 2 then 0 else (logicalLines t).length - 1)
    ∧ ∀ row ∈ parseCSV t, ∀ kv ∈ row, '\n' ∉ kv.2 := by
  intro t
  constructor
  · simp only [parseCSV]
    by_cases hc : (logicalLines t).length < 2
    · rw [if_pos hc, if_pos hc]
      simp
    · rw [if_neg hc, if_neg hc]
      simp
  · intro row hrow kv hkv
    simp only [parseCSV] at hrow
    split at hrow
    · cases hrow
    · obtain ⟨line, _, hrw⟩ := List.mem_map.mp hrow
      subst hrw
      obtain ⟨p, _, hkvp⟩ := List.mem_map.mp hkv
      subst hkvp
      exact getVal_no_newline _ _

/-- The logical record `"A\nB",  "x,y"` spans two physical lines; its
parsed `Name` value collapses the embedded newline to a space. -/
theorem c6_witness :
    '\n' ∉ (("Name".data, "A B".data) : Str × Str).2 :=
  (c6_parser_logical_records ("Name,Desc\n\"A\nB\",\"x,y\"".data)).2
    [(("Name".data), ("A B".data)), (("Desc".data), ("x,y".data))] (by decide)
    (("Name".data), ("A B".data)) (by decide)

/-! ## Claim C2 -/

theorem jsonEsc_eq_self {s : Str} (h : ∀ c ∈ s, jsonEscapeChar c = [c]) :
    jsonEsc s = s := by
  induction s with
  | nil => rfl
  | cons a t ih =>
    unfold jsonEsc
    simp only [List.foldr_cons]
    rw [h a (by simp)]
    show a :: jsonEsc t = a :: t
    rw [ih (fun c hc => h c (by simp [hc]))]

/-- The claim's byte-identity fails: two runs over the same empty dataset
at different instants serialize to different bytes, because `version` and
`lastUpdated` record `new Date().toISOString()` of the run. -/
theorem c2_counterexample :
    serializeOutput showDecNum ("2024-01-01T00:00:00.000Z".data) ⟨0, []⟩
      ≠ serializeOutput showDecNum ("2024-01-02T00:00:00.000Z".data) ⟨0, []⟩ := by
  decide

/-- C2 (amended): for a fixed number printer, the serialized output is a
function only of the run timestamp and the assembled data — key order is
fixed, so identical inputs AND identical timestamps give byte-identical
files — and conversely, with the same data, files from two runs are
byte-identical iff the two timestamps coincide; since the timestamps
record wall-clock time, a re-run generally differs in exactly those two
fields. -/
theorem c2_amended_timestamp_determinism :
    ∀ (showNum : Dec → Str) (t1 t2 : Str) (out : OutputData),
    (∀ c ∈ t1, jsonEscapeChar c = [c]) → (∀ c ∈ t2, jsonEscapeChar c = [c]) →
    (serializeOutput showNum t1 out = serializeOutput showNum t2 out ↔ t1 = t2) := by
  intro sn t1 t2 out h1 h2
  unfold serializeOutput
  rw [jsonEsc_eq_self h1, jsonEsc_eq_self h2]
  constructor
  · intro h
    simp only [List.append_assoc] at h
    have h' := List.append_cancel_left h
    have hlen := congrArg List.length h'
    simp only [List.length_append] at hlen
    have hl : t1.length = t2.length := by omega
    exact (List.append_inj h' hl).1
  · intro h
    rw [h]

theorem c2_witness :
    serializeOutput showDecNum ("2025-03-01T10:00:00.000Z".data) ⟨0, []⟩
      ≠ serializeOutput showDecNum ("2025-03-02T10:00:00.000Z".data) ⟨0, []⟩ :=
  fun h =>
    absurd
      ((c2_amended_timestamp_determinism showDecNum _ _ _ (by decide) (by decide)).mp h)
      (by decide)

end BBB
